import Mathlib

/-
  Shallow embedding of internal/terraform/rootmodule/root_module.go
  (package rootmodule of terraform-ls).

  The mutable rootModule struct becomes an explicit state record RM; the
  per-field locks are elided because the embedding passes state explicitly.
  External collaborators (discovery, exec, lang, schema, tfconfig, addrs,
  and the file helpers of the same package that are not part of src) are
  gathered into an Env record of oracle functions, one per collaborator
  call, following the interface contracts in the spec.

  A Go method call through a nil interface value panics at runtime; the
  two such call sites (SetProviderReferences in ParseProviderReferences
  and SetSchemaReader in findCompatibleStateStorage, both guarded only by
  the parserLoaded flag and not by a nil check) are modeled by an explicit
  fault outcome that aborts the load attempt, as a panic does.
-/

namespace Rootmodule

/-- Go error values are modeled by their message strings. -/
abbrev Err := String

/-- A discovered cache file handle (the File interface of the package):
a path plus a content fingerprint; only the path is observable in the
embedded operations. -/
structure TfFile where
  path : String
deriving DecidableEq, Repr

/-- Modelled from the spec: a module manifest record (module_manifest.go is
not in src). Key, source address and relative dir are carried verbatim; the
derived predicates isRoot and isExternal are carried as fields because their
derivation lives outside src. -/
structure ModuleRecord where
  key : String
  sourceAddr : String
  dir : String
  isRoot : Bool
  isExternal : Bool
deriving DecidableEq, Repr

/-- Modelled from the spec: the parsed module manifest, a root directory
plus an ordered record sequence. -/
structure Manifest where
  rootDir : String
  records : List ModuleRecord
deriving DecidableEq, Repr

/-- The version-specific language parser handle (lang.Parser, external
collaborator boundary): an identity plus its observable bindings, namely
the bound schema reader (by storage identity), the bound provider
reference table, and the logger flag. -/
structure LangParser where
  id : Nat
  schemaReader : Option Nat := none
  provRefs : Option (List (String × String)) := none
  loggerSet : Bool := false
deriving DecidableEq, Repr

/-- The version-specific schema storage handle (schema.Storage, external
collaborator boundary). -/
structure SchemaStorage where
  id : Nat
  loggerSet : Bool := false
deriving DecidableEq, Repr

/-- The terraform executor handle (exec.Executor, external collaborator):
the configuration the embedded code binds on it after construction. -/
structure Executor where
  execPath : String
  workdir : String := ""
  loggerSet : Bool := false
  execLogPath : String := ""
  timeout : Nat := 0
deriving DecidableEq, Repr

/-- A Go context restricted to what the embedded code can observe of it:
whether it has been cancelled. -/
structure Ctx where
  cancelled : Bool
deriving DecidableEq, Repr

/-- A required provider entry of a tfconfig module (only the Source field
is read by the embedded code). -/
structure RequiredProvider where
  source : String
deriving DecidableEq, Repr

/-- A tfconfig module: its RequiredProviders map as an association list.
Go map iteration order is arbitrary; the embedding fixes one order, and
every statement proved over it is insensitive to that order. -/
structure GoModule where
  requiredProviders : List (String × RequiredProvider)
deriving DecidableEq, Repr

/-- Result of discovering a cache file on disk (the findFile and newFile
helpers are not in src): found, a does-not-exist condition, or another
input error, mirroring the os.IsNotExist distinction the code makes. -/
inductive FindRes where
  | found : TfFile → FindRes
  | notExist : FindRes
  | ioErr : Err → FindRes
deriving DecidableEq, Repr

/-- The external collaborators consumed by one load attempt, one oracle per
collaborator call, per the interface contracts of the spec: cache-file
discovery, manifest parsing, toolchain discovery, the version query,
parser and schema-storage factories, declaration loading, provider address
parsing, the schema refresh, and the lock-file directory derivation. -/
structure Env where
  findPluginLockFile : FindRes
  findManifestFile : FindRes
  parseManifest : String → Except Err Manifest
  discoLookPath : Except Err String
  execVersion : Executor → Ctx → Except Err String
  findCompatibleParser : String → Except Err LangParser
  newSchemaStorage : String → Except Err SchemaStorage
  loadModule : Option GoModule
  parseCompactStr : String → Except Err String
  parseSourceString : String → Except Err String
  obtainSchemas : Ctx → Option Executor → String → Option Err
  dirFromLockFilePath : String → String

/-- The rootModule struct: every mutable field, with the locks and the
logger elided. The spawned and obtainCalls fields are instrumentation:
spawned counts pipeline tasks started by StartLoading, obtainCalls counts
invocations of ObtainSchemasForModule. -/
structure RM where
  path : String
  isLoading : Bool := false
  hasCancel : Bool := false
  loadErr : Option (List Err) := none
  moduleManifestFile : Option TfFile := none
  moduleManifest : Option Manifest := none
  pluginLockFile : Option TfFile := none
  schemaStorage : Option SchemaStorage := none
  schemaLoaded : Bool := false
  tfLoaded : Bool := false
  tfExec : Option Executor := none
  tfExecPath : String := ""
  tfExecTimeout : Nat := 0
  tfExecLogPath : String := ""
  tfDiscoErr : Option Err := none
  tfVersion : String := ""
  tfVersionErr : Option Err := none
  parserLoaded : Bool := false
  parser : Option LangParser := none
  providerRefs : List (String × String) := []
  spawned : Nat := 0
  obtainCalls : Nat := 0
deriving DecidableEq, Repr

/-- The newRootModule constructor: zero values plus an empty provider
reference table, which the field defaults of RM supply. -/
def newRootModule (dir : String) : RM := { path := dir }

/-- setLoadingState. -/
def setLoadingState (rm : RM) (b : Bool) : RM := { rm with isLoading := b }

/-- IsLoadingDone: true when no load is in flight. -/
def IsLoadingDone (rm : RM) : Bool := !rm.isLoading

/-- CancelLoading: invoke the stored cancellation when a load is in flight,
then force the loading state back to idle. The context cancellation itself
is observed only by later context-aware collaborator calls, which the
embedding models by running them against a cancelled Ctx. -/
def CancelLoading (rm : RM) : RM := setLoadingState rm false

/-- StartLoading: the re-entrancy guard, then a fresh cancellable context
and the pipeline spawned on a separate task. The spawned task body, which
is the code that actually sets the loading flag, is runSpawnedLoad below;
StartLoading itself returns before the task has run. -/
def StartLoading (rm : RM) : Option Err × RM :=
  if !(IsLoadingDone rm) then (some "root module is already being loaded", rm)
  else (none, { rm with hasCancel := true, spawned := rm.spawned + 1 })

/-- UpdateModuleManifest: a nil lock file is a logged no-op; otherwise the
manifest file is recorded first and the manifest replaced only if parsing
succeeds. -/
def UpdateModuleManifest (env : Env) (rm : RM) (lockFile : Option TfFile) :
    Option Err × RM :=
  match lockFile with
  | none => (none, rm)
  | some lf =>
    let rm1 := { rm with moduleManifestFile := some lf }
    match env.parseManifest lf.path with
    | .error e => (some ("failed to update module manifest: " ++ e), rm1)
    | .ok mm => (none, { rm1 with moduleManifest := some mm })

/-- discoverTerraformExecutor: use the configured path if set, else the
discovery collaborator; construct the executor, bind workdir, logger, the
exec log path and timeout when configured, and install it; the deferred
setTfLoaded marks the toolchain loaded on every exit. -/
def discoverTerraformExecutor (env : Env) (rm : RM) : Option Err × RM :=
  let core : Option Err × RM :=
    let pathRes : Except Err String :=
      if rm.tfExecPath = "" then env.discoLookPath else Except.ok rm.tfExecPath
    match pathRes with
    | .error e => (some e, rm)
    | .ok tfPath =>
      let tf : Executor :=
        { execPath := tfPath, workdir := rm.path, loggerSet := true,
          execLogPath := if rm.tfExecLogPath ≠ "" then rm.tfExecLogPath else "",
          timeout := if rm.tfExecTimeout ≠ 0 then rm.tfExecTimeout else 0 }
      (none, { rm with tfExec := some tf })
  (core.1, { core.2 with tfLoaded := true })

/-- discoverTerraformVersion: a descriptive error when no executor was
installed, else the version query through the executor, recording the
version string on success. -/
def discoverTerraformVersion (env : Env) (ctx : Ctx) (rm : RM) :
    Option Err × RM :=
  match rm.tfExec with
  | none => (some "no terraform executor - unable to read version", rm)
  | some tf =>
    match env.execVersion tf ctx with
    | .error e => (some e, rm)
    | .ok v => (none, { rm with tfVersion := v })

/-- Go map assignment on an association list: replace an existing binding
of the key or append a new one. -/
def mapInsert (k v : String) : List (String × String) → List (String × String)
  | [] => [(k, v)]
  | (k2, v2) :: rest =>
    if k2 = k then (k, v) :: rest else (k2, v2) :: mapInsert k v rest

/-- The loop over mod.RequiredProviders in ParseProviderReferences: skip
unnamed entries, parse each local name, and for entries with a source
string parse the source and bind the address; the first parse failure
aborts the whole build. -/
def buildRefs (env : Env) :
    List (String × RequiredProvider) → List (String × String) →
    Except Err (List (String × String))
  | [], refs => .ok refs
  | (name, rp) :: rest, refs =>
    if name = "" then buildRefs env rest refs
    else
      match env.parseCompactStr name with
      | .error e => .error e
      | .ok lName =>
        if rp.source ≠ "" then
          match env.parseSourceString rp.source with
          | .error e => .error e
          | .ok pAddr => buildRefs env rest (mapInsert lName pAddr refs)
        else buildRefs env rest refs

/-- Outcome of one pipeline step that may dereference a nil interface: a
normal return carrying the Go error and the updated state, or a runtime
panic with the state at the point of the panic. -/
inductive StepRes where
  | ok : Option Err → RM → StepRes
  | fault : String → RM → StepRes
deriving DecidableEq, Repr

/-- The state carried by a step outcome, normal or panicking. -/
def stepResRM : StepRes → RM
  | .ok _ r => r
  | .fault _ r => r

/-- ParseProviderReferences: load the module declarations (diagnostics are
logged, not returned), return nil when no module was produced, build the
reference table, install it, and when the parser-loaded flag is set push
the new table into the parser. The Go code calls SetProviderReferences
through the parser interface with no nil check, which panics when the flag
is set but no parser is installed. -/
def ParseProviderReferences (env : Env) (rm : RM) : StepRes :=
  match env.loadModule with
  | none => .ok none rm
  | some mod =>
    match buildRefs env mod.requiredProviders [] with
    | .error e => .ok (some e) rm
    | .ok refs =>
      let rm1 := { rm with providerRefs := refs }
      if rm1.parserLoaded then
        match rm1.parser with
        | none =>
          .fault "nil pointer dereference: SetProviderReferences on nil parser" rm1
        | some p =>
          .ok none { rm1 with parser := some { p with provRefs := some refs } }
      else .ok none rm1

/-- findCompatibleLangParser: an error when no toolchain version string is
recorded, else the parser factory keyed by the version; on success the new
parser gets its logger bound and is installed; the deferred setParserLoaded
marks the parser loaded on every exit. -/
def findCompatibleLangParser (env : Env) (rm : RM) : Option Err × RM :=
  let core : Option Err × RM :=
    if rm.tfVersion = "" then
      (some "unknown terraform version - unable to find parser", rm)
    else
      match env.findCompatibleParser rm.tfVersion with
      | .error e => (some e, rm)
      | .ok p => (none, { rm with parser := some { p with loggerSet := true } })
  (core.1, { core.2 with parserLoaded := true })

/-- findCompatibleStateStorage: an error when no toolchain version string
is recorded, else the schema-storage factory keyed by the version; on
success the new storage gets its logger bound and is installed, and when
the parser-loaded flag is set the new storage is pushed into the parser as
its schema reader. The Go code calls SetSchemaReader through the parser
interface with no nil check, which panics when the flag is set but no
parser is installed. -/
def findCompatibleStateStorage (env : Env) (rm : RM) : StepRes :=
  if rm.tfVersion = "" then
    .ok (some "unknown terraform version - unable to find state storage") rm
  else
    match env.newSchemaStorage rm.tfVersion with
    | .error e => .ok (some e) rm
    | .ok ss0 =>
      let ss := { ss0 with loggerSet := true }
      let rm1 := { rm with schemaStorage := some ss }
      if rm1.parserLoaded then
        match rm1.parser with
        | none =>
          .fault "nil pointer dereference: SetSchemaReader on nil parser" rm1
        | some p =>
          .ok none { rm1 with parser := some { p with schemaReader := some ss.id } }
      else .ok none rm1

/-- IsTerraformLoaded. -/
def IsTerraformLoaded (rm : RM) : Bool := rm.tfLoaded

/-- IsParserLoaded. -/
def IsParserLoaded (rm : RM) : Bool := rm.parserLoaded

/-- IsSchemaLoaded. -/
def IsSchemaLoaded (rm : RM) : Bool := rm.schemaLoaded

/-- The load-error accessor. -/
def LoadError (rm : RM) : Option (List Err) := rm.loadErr

/-- setLoadErr. -/
def setLoadErr (rm : RM) (e : Option (List Err)) : RM := { rm with loadErr := e }

/-- UpdateSchemaCache: a hard error when the executor is not loaded yet;
after that check the deferred setSchemaLoaded marks the schema loaded on
every exit; a nil lock file is a logged no-op; a missing schema storage is
an error; otherwise the lock file is recorded and the storage refreshes
the schemas for the module directory derived from the lock file path (the
invocation is counted by obtainCalls). -/
def UpdateSchemaCache (env : Env) (ctx : Ctx) (rm : RM)
    (lockFile : Option TfFile) : Option Err × RM :=
  if !(IsTerraformLoaded rm) then
    (some "cannot update schema as terraform executor is not available yet", rm)
  else
    let core : Option Err × RM :=
      match lockFile with
      | none => (none, rm)
      | some lf =>
        match rm.schemaStorage with
        | none => (some "cannot update schema as schema cache is not available", rm)
        | some _ =>
          let rm1 := { rm with pluginLockFile := some lf,
                               obtainCalls := rm.obtainCalls + 1 }
          (env.obtainSchemas ctx rm.tfExec (env.dirFromLockFilePath lf.path), rm1)
    (core.1, { core.2 with schemaLoaded := true })

/-- The seven pipeline steps in their fixed order. -/
inductive StepTag where
  | manifest | discoExec | version | provRefs | langParser | storage | schemaCache
deriving DecidableEq, Repr

/-- The fixed order of the seven pipeline steps. -/
def sevenSteps : List StepTag :=
  [.manifest, .discoExec, .version, .provRefs, .langParser, .storage, .schemaCache]

/-- multierror ErrorOrNil: nil when the accumulator holds no error.
go-multierror Append skips nil errors, so the accumulator of a run is the
list of non-nil step errors in step order. -/
def errorOrNil (errs : List Err) : Option (List Err) :=
  if errs.isEmpty then none else some errs

/-- Outcome of one whole load attempt: the aggregate (ErrorOrNil of the
collected multierror), the trace pairing each issued step with the error
it returned, and the final state; or a panic that aborted the attempt
after the traced steps (the panicking step appears last with no recorded
error, since it never returned one). -/
inductive LoadOut where
  | ok : Option (List Err) → List (StepTag × Option Err) → RM → LoadOut
  | fault : String → List (StepTag × Option Err) → RM → LoadOut
deriving DecidableEq, Repr

/-- The seven-step load pipeline with its deferred CancelLoading: set the
loading flag, issue the seven steps in their fixed order threading the
state, append every step error to the multierror accumulator (Append
skips nil errors, so the accumulator is the filterMap of the per-step
error trace), and return ErrorOrNil of the accumulator; a panic inside a
step aborts the attempt, the deferred CancelLoading still running while
unwinding. -/
def load (env : Env) (ctx : Ctx) (rm0 : RM) : LoadOut :=
  let rm := setLoadingState rm0 true
  let s1 := UpdateModuleManifest env rm rm.moduleManifestFile
  let e1 := s1.1
  let s2 := discoverTerraformExecutor env s1.2
  let e2 := s2.1
  let rmB := { s2.2 with tfDiscoErr := s2.1 }
  let s3 := discoverTerraformVersion env ctx rmB
  let e3 := s3.1
  let rmC := { s3.2 with tfVersionErr := s3.1 }
  match ParseProviderReferences env rmC with
  | .fault msg rmF =>
    .fault msg [(.manifest, e1), (.discoExec, e2), (.version, e3), (.provRefs, none)]
      (CancelLoading rmF)
  | .ok e4 rmD =>
    let s5 := findCompatibleLangParser env rmD
    let e5 := s5.1
    match findCompatibleStateStorage env s5.2 with
    | .fault msg rmF =>
      .fault msg
        [(.manifest, e1), (.discoExec, e2), (.version, e3), (.provRefs, e4),
         (.langParser, e5), (.storage, none)]
        (CancelLoading rmF)
    | .ok e6 rmG =>
      let s7 := UpdateSchemaCache env ctx rmG rmG.pluginLockFile
      let e7 := s7.1
      let tr :=
        [(StepTag.manifest, e1), (StepTag.discoExec, e2), (StepTag.version, e3),
         (StepTag.provRefs, e4), (StepTag.langParser, e5), (StepTag.storage, e6),
         (StepTag.schemaCache, e7)]
      .ok (errorOrNil (tr.filterMap Prod.snd)) tr (CancelLoading s7.2)

/-- The task body spawned by StartLoading: run load under the fresh context
and store its aggregate via setLoadErr; a panic in the task crashes the
process, so no state survives it. -/
def runSpawnedLoad (env : Env) (ctx : Ctx) (rm : RM) : Option RM :=
  match load env ctx rm with
  | .ok agg _ rmf => some (setLoadErr rmf agg)
  | .fault _ _ _ => none

/-- discoverPluginCache: record the lock file when found; a does-not-exist
condition is a logged no-op; another input error is a hard error. -/
def discoverPluginCache (env : Env) (rm : RM) : Option Err × RM :=
  match env.findPluginLockFile with
  | .found lf => (none, { rm with pluginLockFile := some lf })
  | .notExist => (none, rm)
  | .ioErr e => (some ("unable to calculate hash: " ++ e), rm)

/-- discoverModuleCache: record the manifest file when found; a
does-not-exist condition is a logged no-op; another input error is a hard
error. -/
def discoverModuleCache (env : Env) (rm : RM) : Option Err × RM :=
  match env.findManifestFile with
  | .found lf => (none, { rm with moduleManifestFile := some lf })
  | .notExist => (none, rm)
  | .ioErr e => (some ("unable to calculate hash: " ++ e), rm)

/-- discoverCaches: plugin cache then module cache, both errors collected
into one multierror. -/
def discoverCaches (env : Env) (rm : RM) : Option (List Err) × RM :=
  let s1 := discoverPluginCache env rm
  let s2 := discoverModuleCache env s1.2
  (errorOrNil ([s1.1, s2.1].filterMap id), s2.2)

/-- Outcome of the public constructor: the root module and the error value
returned alongside it, or a crash of the synchronous initial load. -/
inductive NewOut where
  | ok : RM → Option (List Err) → NewOut
  | fault : String → NewOut
deriving DecidableEq, Repr

/-- NewRootModule: construct, wire the collaborators, discover the two
cache files (returning the root module with the discovery error when one
occurred), then run the initial synchronous load and return its aggregate
directly to the caller; this path never stores the aggregate in loadErr. -/
def NewRootModule (env : Env) (ctx : Ctx) (dir : String) : NewOut :=
  let rm := newRootModule dir
  let dc := discoverCaches env rm
  match dc.1 with
  | some errs => .ok dc.2 (some errs)
  | none =>
    match load env ctx dc.2 with
    | .ok agg _ rmf => .ok rmf agg
    | .fault msg _ _ => .fault msg

/-- The Parser accessor: an error when the parser-loaded flag is unset, an
error when the flag is set but no handle is installed, never a nil
success. -/
def Parser (rm : RM) : Except Err LangParser :=
  if !(IsParserLoaded rm) then .error "parser is not loaded yet"
  else
    match rm.parser with
    | none => .error "no parser available"
    | some p => .ok p

/-- The Modules accessor: an empty sequence when no manifest is loaded. -/
def Modules (rm : RM) : List ModuleRecord :=
  match rm.moduleManifest with
  | none => []
  | some mm => mm.records

/-- Splits a character list on the path separator. -/
def splitSlash : List Char → List (List Char)
  | [] => [[]]
  | c :: rest =>
    let r := splitSlash rest
    if c = '/' then [] :: r
    else
      match r with
      | [] => [[c]]
      | g :: gs => (c :: g) :: gs

/-- Joins path components with single separators. -/
def joinComps : List (List Char) → List Char
  | [] => []
  | [g] => g
  | g :: gs => g ++ '/' :: joinComps gs

/-- Modelled from the spec: the path normalization under pathEquals (the
pathEquals helper is not in src; the spec says paths are compared after
normalization). Duplicate separators collapse and a trailing separator is
dropped, the leading one being kept. -/
def normalizePath (p : String) : String :=
  let cs := p.toList
  let comps := (splitSlash cs).filter (fun g => g ≠ [])
  let pre : List Char :=
    match cs with
    | '/' :: _ => ['/']
    | _ => []
  String.mk (pre ++ joinComps comps)

/-- Modelled from the spec: pathEquals compares two paths after
normalization. -/
def pathEquals (a b : String) : Bool := normalizePath a = normalizePath b

/-- Modelled from the spec: filepath.Join of the manifest root directory
with a record directory (the helper is not in src): separator
concatenation followed by normalization. -/
def joinPath (a b : String) : String := normalizePath (a ++ "/" ++ b)

/-- The record loop of ReferencesModulePath: skip root records and
external records, and report a match when the joined absolute path equals
the queried path. -/
def refsModLoop (rootDir p : String) : List ModuleRecord → Bool
  | [] => false
  | m :: rest =>
    if m.isRoot then refsModLoop rootDir p rest
    else if m.isExternal then refsModLoop rootDir p rest
    else if pathEquals (joinPath rootDir m.dir) p then true
    else refsModLoop rootDir p rest

/-- ReferencesModulePath: false when no manifest is loaded, else the
record loop over the manifest records. -/
def ReferencesModulePath (rm : RM) (p : String) : Bool :=
  match rm.moduleManifest with
  | none => false
  | some mm => refsModLoop mm.rootDir p mm.records

/-- The trace of a load outcome. -/
def loadOutTrace : LoadOut → List (StepTag × Option Err)
  | .ok _ tr _ => tr
  | .fault _ tr _ => tr

/-- The aggregate of a normally completed load outcome. -/
def loadOutAgg : LoadOut → Option (List Err)
  | .ok agg _ _ => agg
  | .fault _ _ _ => none

/-- The final state of a load outcome. -/
def loadOutRM : LoadOut → RM
  | .ok _ _ rmf => rmf
  | .fault _ _ rmf => rmf

/-- The root module of a constructor outcome. -/
def newOutRM : NewOut → RM
  | .ok rm _ => rm
  | .fault _ => newRootModule ""

/-- The error value of a constructor outcome. -/
def newOutErr : NewOut → Option (List Err)
  | .ok _ e => e
  | .fault _ => none

/-- A context that has not been cancelled. -/
def ctxFresh : Ctx := { cancelled := false }

/-- A context that has been cancelled. -/
def ctxCancelled : Ctx := { cancelled := true }

/-- A collaborator environment in which every step can succeed: no cache
files on disk, a discoverable toolchain whose context-aware calls honor
cancellation, factories compatible with the discovered version, and one
well-formed named required-provider declaration. -/
def envAll : Env where
  findPluginLockFile := .notExist
  findManifestFile := .notExist
  parseManifest := fun _ => .ok { rootDir := "/ws", records := [] }
  discoLookPath := .ok "/usr/local/bin/terraform"
  execVersion := fun _ c =>
    if c.cancelled then .error "context canceled" else .ok "0.12.0"
  findCompatibleParser := fun v =>
    if v = "0.12.0" then .ok { id := 1 } else .error ("no parser for version " ++ v)
  newSchemaStorage := fun v =>
    if v = "0.12.0" then .ok { id := 2 }
    else .error ("no schema storage for version " ++ v)
  loadModule := some { requiredProviders := [("aws", { source := "hashicorp/aws" })] }
  parseCompactStr := fun s => .ok s
  parseSourceString := fun s => .ok ("registry.terraform.io/" ++ s)
  obtainSchemas := fun c _ _ => if c.cancelled then some "context canceled" else none
  dirFromLockFilePath := fun p => p

/-- A collaborator environment whose discovered toolchain version has no
compatible parser and no compatible schema storage, as with an unsupported
terraform version; the module declarations load but declare no named
required providers. -/
def envU : Env :=
  { envAll with
    findCompatibleParser := fun _ => .error "no compatible parser found"
    newSchemaStorage := fun _ => .error "no compatible schema storage found"
    loadModule := some { requiredProviders := [] } }

/-- The initial load of envAll on a fresh root module. -/
def loadResW : LoadOut := load envAll ctxFresh (newRootModule "/ws")

/-- The initial load of envAll under an already-cancelled context. -/
def loadResC4 : LoadOut := load envAll ctxCancelled (newRootModule "/ws")

/-- The construction run under the unsupported-version environment. -/
def newResU : NewOut := NewRootModule envU ctxFresh "/ws"

/-- The root module after the unsupported-version initial load: its
parser-loaded flag is set although no parser is installed. -/
def rmCycle1 : RM := newOutRM newResU

/-- The aggregate the unsupported-version initial load hands back. -/
def aggCycle1 : Option (List Err) := newOutErr newResU

/-- The state after StartLoading on rmCycle1, before the spawned task has
begun executing. -/
def rmStart2 : RM := (StartLoading rmCycle1).2

/-- The restarted (second) load attempt under the unsupported-version
environment. -/
def loadRes2 : LoadOut := load envU ctxFresh rmStart2

/-- A state carrying a recorded toolchain version and a schema store kept
from a previous cycle, with no parser yet. -/
def rmC5 : RM :=
  { newRootModule "/ws" with
    tfVersion := "0.12.0"
    schemaStorage := some { id := 7, loggerSet := true } }

/-- A state carrying a recorded toolchain version and a loaded parser kept
from a previous cycle, with no schema store yet. -/
def rmC5b : RM :=
  { newRootModule "/ws" with
    tfVersion := "0.12.0"
    parserLoaded := true
    parser := some { id := 9 } }

/-- A state whose toolchain is marked loaded. -/
def rmTfLoaded : RM := { newRootModule "/ws" with tfLoaded := true }

/-- A collaborator environment whose provider-address local-name parsing
always fails, as with a malformed local name. -/
def envBad : Env :=
  { envAll with parseCompactStr := fun _ => .error "invalid provider local name" }

/-- A state with a previously installed provider reference table. -/
def rmP : RM := { newRootModule "/ws" with providerRefs := [("old", "example.com/old/addr")] }

/-- A module manifest holding a root record, an external record and one
local child record. -/
def manifestW : Manifest :=
  { rootDir := "/ws",
    records :=
      [{ key := "", sourceAddr := "root", dir := ".", isRoot := true, isExternal := false },
       { key := "ext", sourceAddr := "registry.example.com/m", dir := "ext",
         isRoot := false, isExternal := true },
       { key := "child", sourceAddr := "./app", dir := "app",
         isRoot := false, isExternal := false }] }

/-- A state whose module manifest is manifestW. -/
def rmC8 : RM := { newRootModule "/ws" with moduleManifest := some manifestW }

/-
  Helper lemmas: no pipeline step writes the loadErr field, and the
  structural facts about load needed by several claims.
-/

/-- UpdateModuleManifest never writes loadErr. -/
theorem updateModuleManifest_loadErr (env : Env) (rm : RM) (lf : Option TfFile) :
    ((UpdateModuleManifest env rm lf).2).loadErr = rm.loadErr := by
  rcases lf with _ | f
  · rfl
  · rcases hp : env.parseManifest f.path with e | mm <;>
      simp [UpdateModuleManifest, hp]

/-- discoverTerraformExecutor never writes loadErr. -/
theorem discoverTerraformExecutor_loadErr (env : Env) (rm : RM) :
    ((discoverTerraformExecutor env rm).2).loadErr = rm.loadErr := by
  rcases hp : (if rm.tfExecPath = "" then env.discoLookPath else Except.ok rm.tfExecPath)
      with e | p <;>
    simp [discoverTerraformExecutor, hp]

/-- discoverTerraformVersion never writes loadErr. -/
theorem discoverTerraformVersion_loadErr (env : Env) (ctx : Ctx) (rm : RM) :
    ((discoverTerraformVersion env ctx rm).2).loadErr = rm.loadErr := by
  rcases he : rm.tfExec with _ | tf
  · simp [discoverTerraformVersion, he]
  · rcases hv : env.execVersion tf ctx with e | v <;>
      simp [discoverTerraformVersion, he, hv]

/-- ParseProviderReferences never writes loadErr, on the panic path too. -/
theorem parseProviderReferences_loadErr (env : Env) (rm : RM) :
    (stepResRM (ParseProviderReferences env rm)).loadErr = rm.loadErr := by
  rcases hm : env.loadModule with _ | mod
  · simp [ParseProviderReferences, hm, stepResRM]
  · rcases hb : buildRefs env mod.requiredProviders [] with e | refs
    · simp [ParseProviderReferences, hm, hb, stepResRM]
    · rcases hp : rm.parser with _ | p <;>
        by_cases hl : rm.parserLoaded = true <;>
          simp [ParseProviderReferences, hm, hb, hp, hl, stepResRM]

/-- ParseProviderReferences never writes loadErr (normal returns). -/
theorem parseProviderReferences_ok_loadErr (env : Env) (rm : RM) (e : Option Err)
    (rm2 : RM) (h : ParseProviderReferences env rm = .ok e rm2) :
    rm2.loadErr = rm.loadErr := by
  have hh := parseProviderReferences_loadErr env rm
  rw [h] at hh
  exact hh

/-- findCompatibleLangParser never writes loadErr. -/
theorem findCompatibleLangParser_loadErr (env : Env) (rm : RM) :
    ((findCompatibleLangParser env rm).2).loadErr = rm.loadErr := by
  by_cases hv : rm.tfVersion = ""
  · simp [findCompatibleLangParser, hv]
  · rcases hp : env.findCompatibleParser rm.tfVersion with e | p <;>
      simp [findCompatibleLangParser, hv, hp]

/-- findCompatibleStateStorage never writes loadErr, on the panic path too. -/
theorem findCompatibleStateStorage_loadErr (env : Env) (rm : RM) :
    (stepResRM (findCompatibleStateStorage env rm)).loadErr = rm.loadErr := by
  by_cases hv : rm.tfVersion = ""
  · simp [findCompatibleStateStorage, hv, stepResRM]
  · rcases hs : env.newSchemaStorage rm.tfVersion with e | ss
    · simp [findCompatibleStateStorage, hv, hs, stepResRM]
    · rcases hp : rm.parser with _ | p <;>
        by_cases hl : rm.parserLoaded = true <;>
          simp [findCompatibleStateStorage, hv, hs, hp, hl, stepResRM]

/-- findCompatibleStateStorage never writes loadErr (normal returns). -/
theorem findCompatibleStateStorage_ok_loadErr (env : Env) (rm : RM) (e : Option Err)
    (rm2 : RM) (h : findCompatibleStateStorage env rm = .ok e rm2) :
    rm2.loadErr = rm.loadErr := by
  have hh := findCompatibleStateStorage_loadErr env rm
  rw [h] at hh
  exact hh

/-- UpdateSchemaCache never writes loadErr. -/
theorem updateSchemaCache_loadErr (env : Env) (ctx : Ctx) (rm : RM)
    (lf : Option TfFile) :
    ((UpdateSchemaCache env ctx rm lf).2).loadErr = rm.loadErr := by
  by_cases ht : rm.tfLoaded = true
  · rcases lf with _ | f
    · simp [UpdateSchemaCache, IsTerraformLoaded, ht]
    · rcases hs : rm.schemaStorage with _ | ss <;>
        simp [UpdateSchemaCache, IsTerraformLoaded, ht, hs]
  · simp [UpdateSchemaCache, IsTerraformLoaded, ht]

/-- Every normally completed load attempt issues the seven steps in the
fixed order, aggregates exactly the non-nil per-step errors, ends with the
loading flag back at idle, and never writes loadErr. -/
theorem load_ok_spec (env : Env) (ctx : Ctx) (rm0 : RM) (agg : Option (List Err))
    (tr : List (StepTag × Option Err)) (rmf : RM)
    (h : load env ctx rm0 = .ok agg tr rmf) :
    tr.map Prod.fst = sevenSteps ∧ agg = errorOrNil (tr.filterMap Prod.snd) ∧
    rmf.isLoading = false ∧ rmf.loadErr = rm0.loadErr := by
  simp only [load] at h
  split at h
  · exact absurd h (by simp)
  · rename_i e4 rmD heq1
    split at h
    · exact absurd h (by simp)
    · rename_i e6 rmG heq2
      rw [LoadOut.ok.injEq] at h
      obtain ⟨h1, h2, h3⟩ := h
      subst h1
      subst h2
      subst h3
      refine ⟨rfl, rfl, rfl, ?_⟩
      have hd := parseProviderReferences_ok_loadErr env _ e4 rmD heq1
      have hg := findCompatibleStateStorage_ok_loadErr env _ e6 rmG heq2
      simp only [CancelLoading, setLoadingState, updateSchemaCache_loadErr,
        findCompatibleLangParser_loadErr, hg, hd,
        discoverTerraformVersion_loadErr, discoverTerraformExecutor_loadErr,
        updateModuleManifest_loadErr]

/-- C1 (amended): every load attempt that completes without a runtime
panic issues all seven pipeline steps in the fixed order, no matter which
steps failed, and returns the aggregate of exactly the per-step errors,
nil only when no step failed. -/
theorem c1_pipeline_order_and_aggregate (env : Env) (ctx : Ctx) (rm0 : RM) :
    ∀ agg tr rmf, load env ctx rm0 = .ok agg tr rmf →
      tr.map Prod.fst = sevenSteps ∧
      agg = errorOrNil (tr.filterMap Prod.snd) ∧
      (agg = none ↔ ∀ q ∈ tr, q.2 = none) := by
  intro agg tr rmf h
  obtain ⟨h1, h2, _, _⟩ := load_ok_spec env ctx rm0 agg tr rmf h
  refine ⟨h1, h2, ?_⟩
  subst h2
  have hEmpty : errorOrNil (tr.filterMap Prod.snd) = none ↔
      tr.filterMap Prod.snd = [] := by
    unfold errorOrNil
    split
    · rename_i hcond
      simp only [List.isEmpty_eq_true] at hcond
      simp [hcond]
    · rename_i hcond
      simp only [List.isEmpty_eq_true] at hcond
      simp [hcond]
  rw [hEmpty, List.filterMap_eq_nil_iff]

/-- C1 witness: an all-success run completes normally; the theorem yields
its fixed step order. -/
theorem c1_pipeline_order_and_aggregate_witness :
    load envAll ctxFresh (newRootModule "/ws") =
      .ok (loadOutAgg loadResW) (loadOutTrace loadResW) (loadOutRM loadResW) ∧
    (loadOutTrace loadResW).map Prod.fst = sevenSteps :=
  ⟨rfl,
   (c1_pipeline_order_and_aggregate envAll ctxFresh (newRootModule "/ws")
     (loadOutAgg loadResW) (loadOutTrace loadResW) (loadOutRM loadResW) rfl).1⟩

/-- C1 counterexample: a load attempt reachable through the public
operations (an initial load under a toolchain version with no compatible
parser, then a restarted load) aborts in step 4 with a nil-parser panic,
so it issues only four of the seven steps and returns no aggregate. -/
theorem c1_counterexample :
    NewRootModule envU ctxFresh "/ws" = .ok rmCycle1 aggCycle1 ∧
    StartLoading rmCycle1 = (none, rmStart2) ∧
    load envU ctxFresh rmStart2 =
      .fault "nil pointer dereference: SetProviderReferences on nil parser"
        [(.manifest, none), (.discoExec, none), (.version, none), (.provRefs, none)]
        (loadOutRM loadRes2) ∧
    [(StepTag.manifest, (none : Option Err)), (.discoExec, none), (.version, none),
      (.provRefs, none)].map Prod.fst ≠ sevenSteps :=
  ⟨rfl, rfl, rfl, by decide⟩

/-- C2 (amended): a completed asynchronous load attempt stores its
aggregate via setLoadErr, so the load-error accessor returns it; the
initial synchronous load never stores its aggregate, which is instead
returned directly to the caller of NewRootModule. -/
theorem c2_load_error_storage (env : Env) (ctx : Ctx) :
    (∀ rm agg tr rmf, load env ctx rm = .ok agg tr rmf →
      runSpawnedLoad env ctx rm = some (setLoadErr rmf agg) ∧
      LoadError (setLoadErr rmf agg) = agg) ∧
    (∀ dir rm e, NewRootModule env ctx dir = .ok rm e → LoadError rm = none) := by
  constructor
  · intro rm agg tr rmf h
    refine ⟨?_, rfl⟩
    unfold runSpawnedLoad
    rw [h]
  · intro dir rm e h
    simp only [NewRootModule] at h
    split at h
    · rename_i errs heq
      rw [NewOut.ok.injEq] at h
      obtain ⟨h1, _⟩ := h
      subst h1
      simp only [LoadError, discoverCaches]
      rcases hm : env.findManifestFile with lf | _ | e2 <;>
        rcases hp : env.findPluginLockFile with lf2 | _ | e3 <;>
          simp [discoverModuleCache, discoverPluginCache, hm, hp, newRootModule]
    · split at h
      · rename_i agg tr rmf heq2
        rw [NewOut.ok.injEq] at h
        obtain ⟨h1, _⟩ := h
        subst h1
        have h4 := (load_ok_spec env ctx _ agg tr rmf heq2).2.2.2
        rw [LoadError, h4]
        simp only [discoverCaches]
        rcases hm : env.findManifestFile with lf | _ | e2 <;>
          rcases hp : env.findPluginLockFile with lf2 | _ | e3 <;>
            simp [discoverModuleCache, discoverPluginCache, hm, hp, newRootModule]
      · exact absurd h (by simp)

/-- C2 witness: the all-success environment exercises both the spawned
storage path and the nil stored error after construction. -/
theorem c2_load_error_storage_witness :
    runSpawnedLoad envAll ctxFresh (newRootModule "/ws") =
      some (setLoadErr (loadOutRM loadResW) (loadOutAgg loadResW)) ∧
    LoadError (newOutRM (NewRootModule envAll ctxFresh "/ws")) = none :=
  ⟨((c2_load_error_storage envAll ctxFresh).1 (newRootModule "/ws")
      (loadOutAgg loadResW) (loadOutTrace loadResW) (loadOutRM loadResW) rfl).1,
   (c2_load_error_storage envAll ctxFresh).2 "/ws"
     (newOutRM (NewRootModule envAll ctxFresh "/ws"))
     (newOutErr (NewRootModule envAll ctxFresh "/ws")) rfl⟩

/-- C2 counterexample: the initial synchronous load completes with a
non-nil aggregate handed to the constructor caller, yet the load-error
accessor still returns nil afterwards: the initial aggregate is never
stored as the last load error. -/
theorem c2_counterexample :
    NewRootModule envU ctxFresh "/ws" = .ok rmCycle1 aggCycle1 ∧
    aggCycle1 = some ["no compatible parser found",
                      "no compatible schema storage found"] ∧
    LoadError rmCycle1 = none :=
  ⟨rfl, rfl, rfl⟩

/-- C3: two consecutive StartLoading calls with no intervening execution
of the spawned pipeline both pass the re-entrancy guard and spawn two
pipeline tasks, because the loading flag is set only inside the spawned
load itself; the guard rejects a caller only once that flag is actually
set. -/
theorem c3_double_start_both_succeed :
    (StartLoading (newRootModule "/ws")).1 = none ∧
    (StartLoading (StartLoading (newRootModule "/ws")).2).1 = none ∧
    (StartLoading (StartLoading (newRootModule "/ws")).2).2.spawned = 2 ∧
    (StartLoading (setLoadingState (newRootModule "/ws") true)).1 =
      some "root module is already being loaded" := by
  refine ⟨rfl, rfl, rfl, rfl⟩

/-- C4 (amended): CancelLoading always forces the loading state back to
idle, and cancellation does not shorten the pipeline: any load attempt
that completes, under a cancelled context too, still issues all seven
steps and ends idle; the cancellation is observed only inside the
context-aware collaborator calls, whose errors join the aggregate. -/
theorem c4_cancel_idle_steps_still_issued (env : Env) (ctx : Ctx) (rm : RM) :
    (CancelLoading rm).isLoading = false ∧
    (∀ agg tr rmf, load env ctx rm = .ok agg tr rmf →
      rmf.isLoading = false ∧ tr.map Prod.fst = sevenSteps) := by
  refine ⟨rfl, ?_⟩
  intro agg tr rmf h
  obtain ⟨h1, _, h3, _⟩ := load_ok_spec env ctx rm agg tr rmf h
  exact ⟨h3, h1⟩

/-- C4 witness: the cancelled-context run completes and the theorem yields
the idle state and the full step order for it. -/
theorem c4_cancel_idle_steps_still_issued_witness :
    (CancelLoading (newRootModule "/ws")).isLoading = false ∧
    (loadOutTrace loadResC4).map Prod.fst = sevenSteps :=
  ⟨(c4_cancel_idle_steps_still_issued envAll ctxCancelled (newRootModule "/ws")).1,
   ((c4_cancel_idle_steps_still_issued envAll ctxCancelled (newRootModule "/ws")).2
     (loadOutAgg loadResC4) (loadOutTrace loadResC4) (loadOutRM loadResC4) rfl).2⟩

/-- C4 counterexample: under an already-cancelled context the version
query observes the cancellation and fails with the context error, yet the
pipeline still issues every remaining step: the interrupted attempt runs
through all seven steps instead of stopping. -/
theorem c4_counterexample :
    load envAll ctxCancelled (newRootModule "/ws") =
      .ok (loadOutAgg loadResC4) (loadOutTrace loadResC4) (loadOutRM loadResC4) ∧
    (StepTag.version, some "context canceled") ∈ loadOutTrace loadResC4 ∧
    (loadOutTrace loadResC4).map Prod.fst = sevenSteps :=
  ⟨rfl, by decide, by decide⟩

/-- C5 (amended): parser resolution errors whenever no toolchain version
string is recorded in the state, sets the parser-loaded flag regardless of
outcome, and installs the factory parser with only its logger bound,
performing no schema-store binding; the schema store is bound to the
parser by step 6 instead, which on success pushes the newly resolved
storage into the installed parser when the parser-loaded flag is set. -/
theorem c5_parser_resolution (env : Env) :
    (∀ rm, rm.tfVersion = "" → (findCompatibleLangParser env rm).1 =
      some "unknown terraform version - unable to find parser") ∧
    (∀ rm, (findCompatibleLangParser env rm).2.parserLoaded = true) ∧
    (∀ rm p, rm.tfVersion ≠ "" → env.findCompatibleParser rm.tfVersion = .ok p →
      (findCompatibleLangParser env rm).2.parser = some { p with loggerSet := true }) ∧
    (∀ rm p ss, rm.tfVersion ≠ "" → env.newSchemaStorage rm.tfVersion = .ok ss →
      rm.parserLoaded = true → rm.parser = some p →
      findCompatibleStateStorage env rm =
        .ok none { rm with
                   schemaStorage := some { ss with loggerSet := true }
                   parser := some { p with schemaReader := some ss.id } }) := by
  refine ⟨?_, ?_, ?_, ?_⟩
  · intro rm hv
    simp [findCompatibleLangParser, hv]
  · intro rm
    rfl
  · intro rm p hv hp
    simp [findCompatibleLangParser, hv, hp]
  · intro rm p ss hv hs hl hparser
    simp [findCompatibleStateStorage, hv, hs, hl, hparser]

/-- C5 witness: concrete instances of the four parts, one per discharged
hypothesis set. -/
theorem c5_parser_resolution_witness :
    (findCompatibleLangParser envAll (newRootModule "/ws")).1 =
      some "unknown terraform version - unable to find parser" ∧
    (findCompatibleLangParser envAll rmC5).2.parserLoaded = true ∧
    (findCompatibleLangParser envAll rmC5).2.parser =
      some { id := 1, schemaReader := none, provRefs := none, loggerSet := true } ∧
    findCompatibleStateStorage envAll rmC5b =
      .ok none { rmC5b with
                 schemaStorage := some { id := 2, loggerSet := true }
                 parser := some { id := 9, schemaReader := some 2, provRefs := none,
                                  loggerSet := false } } :=
  ⟨(c5_parser_resolution envAll).1 (newRootModule "/ws") rfl,
   (c5_parser_resolution envAll).2.1 rmC5,
   (c5_parser_resolution envAll).2.2.1 rmC5 { id := 1 } (by decide) rfl,
   (c5_parser_resolution envAll).2.2.2 rmC5b { id := 9 } { id := 2 } (by decide) rfl
     rfl rfl⟩

/-- C5 counterexample: with a schema store present from a previous cycle
and a resolvable version, parser resolution succeeds but leaves the newly
resolved parser with no schema reader bound: the step binds no schema
store to the new parser. -/
theorem c5_counterexample :
    rmC5.schemaStorage = some { id := 7, loggerSet := true } ∧
    (findCompatibleLangParser envAll rmC5).1 = none ∧
    (findCompatibleLangParser envAll rmC5).2.parser =
      some { id := 1, schemaReader := none, provRefs := none, loggerSet := true } ∧
    (findCompatibleLangParser envAll rmC5).2.parser ≠
      some { id := 1, schemaReader := some 7, provRefs := none, loggerSet := true } := by
  refine ⟨rfl, rfl, rfl, by decide⟩

/-- C6 (amended): UpdateSchemaCache checks the executor first: whenever
the toolchain is not loaded it returns the hard error with the state
untouched, even when the lock file argument is nil; when the toolchain is
loaded and no plugin lock file was discovered it returns nil, performs no
refresh, and still marks the schema loaded. -/
theorem c6_update_schema_cache (env : Env) (ctx : Ctx) :
    (∀ rm lf, rm.tfLoaded = false →
      UpdateSchemaCache env ctx rm lf =
        (some "cannot update schema as terraform executor is not available yet", rm)) ∧
    (∀ rm, rm.tfLoaded = true →
      UpdateSchemaCache env ctx rm none = (none, { rm with schemaLoaded := true })) := by
  constructor
  · intro rm lf ht
    simp [UpdateSchemaCache, IsTerraformLoaded, ht]
  · intro rm ht
    simp [UpdateSchemaCache, IsTerraformLoaded, ht]

/-- C6 witness: the hard error on a fresh state with a nil lock file, and
the marked no-op once the executor is loaded. -/
theorem c6_update_schema_cache_witness :
    UpdateSchemaCache envAll ctxFresh (newRootModule "/ws") none =
      (some "cannot update schema as terraform executor is not available yet",
       newRootModule "/ws") ∧
    UpdateSchemaCache envAll ctxFresh rmTfLoaded none =
      (none, { rmTfLoaded with schemaLoaded := true }) :=
  ⟨(c6_update_schema_cache envAll ctxFresh).1 (newRootModule "/ws") none rfl,
   (c6_update_schema_cache envAll ctxFresh).2 rmTfLoaded rfl⟩

/-- C6 counterexample: with a nil lock file but a not-yet-loaded executor,
UpdateSchemaCache returns the hard error, not the nil no-op the claim
asserts for every nil-lock-file call. -/
theorem c6_counterexample :
    (UpdateSchemaCache envAll ctxFresh (newRootModule "/ws") none).1 =
      some "cannot update schema as terraform executor is not available yet" := by
  decide

/-- C7: the Parser accessor errors whenever the parser-loaded flag is
false, errors when the flag is set but no handle is installed, and every
success returns exactly the installed non-nil handle: never a nil
success. -/
theorem c7_parser_accessor :
    (∀ rm, rm.parserLoaded = false → Parser rm = .error "parser is not loaded yet") ∧
    (∀ rm, rm.parserLoaded = true → rm.parser = none →
      Parser rm = .error "no parser available") ∧
    (∀ rm p, Parser rm = .ok p → rm.parserLoaded = true ∧ rm.parser = some p) := by
  refine ⟨?_, ?_, ?_⟩
  · intro rm h
    simp [Parser, IsParserLoaded, h]
  · intro rm h hp
    simp [Parser, IsParserLoaded, h, hp]
  · intro rm p h
    by_cases hl : rm.parserLoaded = true
    · rcases hp : rm.parser with _ | q
      · simp [Parser, IsParserLoaded, hl, hp] at h
      · simp [Parser, IsParserLoaded, hl, hp] at h
        subst h
        exact ⟨hl, rfl⟩
    · simp [Parser, IsParserLoaded, hl] at h

/-- C7 witness: the not-loaded error on a fresh state, and the no-parser
error on the reachable state whose flag is set with no handle. -/
theorem c7_parser_accessor_witness :
    Parser (newRootModule "/ws") = .error "parser is not loaded yet" ∧
    Parser rmCycle1 = .error "no parser available" :=
  ⟨c7_parser_accessor.1 (newRootModule "/ws") rfl,
   c7_parser_accessor.2.1 rmCycle1 rfl rfl⟩

/-- The record loop reports a match exactly when some record in the list
is neither root nor external and joins to a path equal to the query. -/
theorem refsModLoop_iff (rootDir p : String) (l : List ModuleRecord) :
    refsModLoop rootDir p l = true ↔
      ∃ m ∈ l, m.isRoot = false ∧ m.isExternal = false ∧
        pathEquals (joinPath rootDir m.dir) p = true := by
  induction l with
  | nil => simp [refsModLoop]
  | cons m rest ih =>
    by_cases hr : m.isRoot = true
    · simp [refsModLoop, hr, ih]
    · by_cases he : m.isExternal = true
      · simp [refsModLoop, hr, he, ih]
      · by_cases hq : pathEquals (joinPath rootDir m.dir) p = true
        · simp [refsModLoop, hr, he, hq]
        · simp [refsModLoop, hr, he, hq, ih]

/-- C8: ReferencesModulePath holds exactly when the manifest is present
and some of its records that is neither a root record nor an external
record joins (manifest root directory with the record directory) to a
path equal, after normalization, to the queried path; no manifest means
false. -/
theorem c8_references_module_path :
    (∀ rm p, ReferencesModulePath rm p = true ↔
      ∃ mm, rm.moduleManifest = some mm ∧
        ∃ m ∈ mm.records, m.isRoot = false ∧ m.isExternal = false ∧
          pathEquals (joinPath mm.rootDir m.dir) p = true) ∧
    (∀ rm p, rm.moduleManifest = none → ReferencesModulePath rm p = false) := by
  constructor
  · intro rm p
    rcases hm : rm.moduleManifest with _ | mm
    · simp [ReferencesModulePath, hm]
    · simp [ReferencesModulePath, hm, refsModLoop_iff]
  · intro rm p hm
    simp [ReferencesModulePath, hm]

/-- C8 witness: a manifest with a root, an external and a local child
record matches the child under normalization and nothing else; a state
without a manifest matches nothing. -/
theorem c8_references_module_path_witness :
    ReferencesModulePath rmC8 "/ws//app/" = true ∧
    ReferencesModulePath (newRootModule "/ws") "/ws/app" = false :=
  ⟨(c8_references_module_path.1 rmC8 "/ws//app/").mpr
     ⟨manifestW, rfl,
      ⟨{ key := "child", sourceAddr := "./app", dir := "app",
         isRoot := false, isExternal := false }, by decide, rfl, rfl, by decide⟩⟩,
   c8_references_module_path.2 (newRootModule "/ws") "/ws/app" rfl⟩

/-- C9: a parse failure in ParseProviderReferences leaves the whole
state, the installed provider reference table included, unchanged; the
table is replaced only by a build that succeeded over every named
declaration, and is also kept when no module was loadable. -/
theorem c9_provider_refs_atomic (env : Env) :
    (∀ rm e rm2, ParseProviderReferences env rm = .ok (some e) rm2 → rm2 = rm) ∧
    (∀ rm rm2, ParseProviderReferences env rm = .ok none rm2 →
      (env.loadModule = none ∧ rm2 = rm) ∨
      (∃ mod refs, env.loadModule = some mod ∧
        buildRefs env mod.requiredProviders [] = .ok refs ∧
        rm2.providerRefs = refs)) := by
  constructor
  · intro rm e rm2 h
    rcases hm : env.loadModule with _ | mod
    · simp [ParseProviderReferences, hm] at h
    · rcases hb : buildRefs env mod.requiredProviders [] with eb | refs
      · simp [ParseProviderReferences, hm, hb] at h
        exact h.2.symm
      · rcases hp : rm.parser with _ | p <;>
          by_cases hl : rm.parserLoaded = true <;>
            simp [ParseProviderReferences, hm, hb, hp, hl] at h
  · intro rm rm2 h
    rcases hm : env.loadModule with _ | mod
    · simp [ParseProviderReferences, hm] at h
      exact Or.inl ⟨rfl, h.symm⟩
    · rcases hb : buildRefs env mod.requiredProviders [] with eb | refs
      · simp [ParseProviderReferences, hm, hb] at h
      · refine Or.inr ⟨mod, refs, rfl, hb, ?_⟩
        rcases hp : rm.parser with _ | p <;>
          by_cases hl : rm.parserLoaded = true <;>
            simp [ParseProviderReferences, hm, hb, hp, hl] at h <;>
              rw [← h]

/-- C9 witness: a malformed local name aborts the build with the table
kept, and a successful build installs the parsed table. -/
theorem c9_provider_refs_atomic_witness :
    rmP = rmP ∧
    ((envAll.loadModule = none ∧
        { rmP with providerRefs := [("aws", "registry.terraform.io/hashicorp/aws")] } = rmP) ∨
      (∃ mod refs, envAll.loadModule = some mod ∧
        buildRefs envAll mod.requiredProviders [] = .ok refs ∧
        ({ rmP with
           providerRefs :=
             [("aws", "registry.terraform.io/hashicorp/aws")] }).providerRefs = refs)) :=
  ⟨(c9_provider_refs_atomic envBad).1 rmP "invalid provider local name" rmP rfl,
   (c9_provider_refs_atomic envAll).2 rmP
     { rmP with providerRefs := [("aws", "registry.terraform.io/hashicorp/aws")] } rfl⟩

/-- C10: a state reachable through the public operations alone (initial
load under a toolchain version with no compatible parser, then a
restarted load) carries the parser-loaded flag set with no parser handle
installed, and the restarted attempt reaches SetProviderReferences
through the nil parser: the flag-guarded call panics instead of being
nil-safe. -/
theorem c10_nil_parser_method_call :
    NewRootModule envU ctxFresh "/ws" = .ok rmCycle1 aggCycle1 ∧
    rmCycle1.parserLoaded = true ∧
    rmCycle1.parser = none ∧
    StartLoading rmCycle1 = (none, rmStart2) ∧
    load envU ctxFresh rmStart2 =
      .fault "nil pointer dereference: SetProviderReferences on nil parser"
        (loadOutTrace loadRes2) (loadOutRM loadRes2) :=
  ⟨rfl, rfl, rfl, rfl, rfl⟩

end Rootmodule
